import Mathlib

/-!
Verification of the request fallback orchestrator in
src/src/server_request.cpp (ServerRequest::MakeRequest and
ServerRequest::GetTempTransports).

Modelling choices (shallow embedding):

* External collaborators are oracles indexed by a clock.  The clock counts
  the external operations the orchestrator performs (each SecureRequestClient
  attempt and each temporary-transport connect advances it by one); the stop
  signal is a time-indexed predicate polled at the current clock value.
* One call of ServerRequest::MakeRequest is a pure function from the oracles
  and its C++ arguments to a result together with a chronological trace of
  observable events (HTTPS attempts with their port and local-proxy flag,
  transport connects/disconnects, disposal of filtered-out transports).
* stopInfo.stopSignal->CheckSignal(..., true) throws when signalled; that
  exit is the result MRResult.stopped.  assert(requestPath) fails exactly
  when the pointer is null; requestPath is modelled as Option String with
  none for the null pointer, and the assertion exit is MRResult.assertFailed.
* HTTPSRequest::MakeRequest is a black box returning success or failure, or
  raising an exception (HttpOutcome.raise) that propagates out of the
  orchestrator (MRResult.raised).
* TransportConnection (not part of the sampled source) is modelled from the
  spec: Connect either succeeds or throws TryNextServer, and the scoped
  wrapper disconnects a successfully connected transport on every exit from
  its scope, including exception unwinding.
-/

/-- Immutable description of the target server, as read by the orchestrator:
GetServerAddress, GetWebPort, GetWebServerCertificate. -/
structure SessionInfo where
  serverAddress : String
  webPort : Nat
  webServerCertificate : String
deriving Repr, DecidableEq

/-- A transport as the orchestrator sees it: an identity for the trace plus
the capability queries the source performs (IsConnected,
IsServerRequestTunnelled, IsHandshakeRequired). -/
structure ITransport where
  tid : Nat
  isConnected : Bool
  isServerRequestTunnelled : Bool
  isHandshakeRequired : SessionInfo → Bool

/-- Outcome of one HTTPSRequest::MakeRequest call: returns true, returns
false, or raises an exception that propagates out of the orchestrator. -/
inductive HttpOutcome where
  | success
  | failed
  | raise
deriving Repr, DecidableEq

/-- Outcome of one TransportConnection::Connect call: success, or the
TryNextServer exception that the candidate loop catches. -/
inductive ConnectOutcome where
  | ok
  | tryNextServer
deriving Repr, DecidableEq

/-- Observable events of one MakeRequest call, in chronological order. -/
inductive Event where
  | httpAttempt (port : Nat) (useLocalProxy : Bool)
  | connect (tid : Nat)
  | connectFailed (tid : Nat)
  | disconnect (tid : Nat)
  | dispose (tid : Nat)
deriving Repr, DecidableEq

/-- How one MakeRequest call ends: a returned boolean, the StopSignal throw
from the initial CheckSignal, the assert(requestPath) failure, or an
exception propagated from a collaborator. -/
inductive MRResult where
  | ret (b : Bool)
  | stopped
  | assertFailed
  | raised
deriving Repr, DecidableEq

/-- Exit of the direct-port loop: an early return from MakeRequest, or
falling through after exhausting the port list. -/
inductive PortsExit where
  | retd (r : MRResult)
  | exhausted
deriving Repr, DecidableEq

namespace ServerRequest

/-- The direct-connection loop of MakeRequest (lines 143-162): for each port
in order, one HTTPSRequest with useLocalProxy = false; return true on
success, continue on failure, propagate an exception.  Returns the exit,
the clock after the loop, and the events of the loop. -/
def tryPorts (http : Nat → HttpOutcome) :
    List Nat → Nat → PortsExit × Nat × List Event
  | [], c => (.exhausted, c, [])
  | p :: rest, c =>
    let ev := Event.httpAttempt p false
    match http c with
    | .success => (.retd (.ret true), c + 1, [ev])
    | .raise => (.retd .raised, c + 1, [ev])
    | .failed =>
      let r := tryPorts http rest (c + 1)
      (r.1, r.2.1, ev :: r.2.2)

/-- The temporary-candidate loop of MakeRequest (lines 172-224).  For each
candidate: TransportConnection::Connect (throws TryNextServer on failure,
caught and passed); on success one HTTPSRequest at sessionInfo's web port
with useLocalProxy = the candidate's IsServerRequestTunnelled; the scoped
TransportConnection disconnects the transport on every exit from the scope
(break on success, loop continuation on failure, unwinding on exception).
Returns the result of MakeRequest from this point, the final clock, and the
events. -/
def tryCandidates (http : Nat → HttpOutcome) (conn : Nat → ConnectOutcome)
    (sessionInfo : SessionInfo) :
    List ITransport → Nat → MRResult × Nat × List Event
  | [], c => (.ret false, c, [])
  | t :: rest, c =>
    match conn c with
    | .tryNextServer =>
      let r := tryCandidates http conn sessionInfo rest (c + 1)
      (r.1, r.2.1, Event.connectFailed t.tid :: r.2.2)
    | .ok =>
      let evs := [Event.connect t.tid,
                  Event.httpAttempt sessionInfo.webPort t.isServerRequestTunnelled,
                  Event.disconnect t.tid]
      match http (c + 1) with
      | .success => (.ret true, c + 2, evs)
      | .raise => (.raised, c + 2, evs)
      | .failed =>
        let r := tryCandidates http conn sessionInfo rest (c + 2)
        (r.1, r.2.1, evs ++ r.2.2)

/-- ServerRequest::GetTempTransports (lines 238-263): filter the catalog
enumeration, keeping (in order) the transports whose IsHandshakeRequired is
false and deleting the others at the point of filtering.  Returns the
o_tempTransports list and the disposal events. -/
def GetTempTransports (sessionInfo : SessionInfo) :
    List ITransport → List ITransport × List Event
  | [] => ([], [])
  | t :: rest =>
    let r := GetTempTransports sessionInfo rest
    if t.isHandshakeRequired sessionInfo then
      (r.1, Event.dispose t.tid :: r.2)
    else
      (t :: r.1, r.2)

/-- The connected-transport branch of MakeRequest (lines 110-127): exactly
one HTTPSRequest at sessionInfo's web port with useLocalProxy =
currentTransport->IsServerRequestTunnelled(), whose result is returned. -/
def connectedAttempt (http : Nat → HttpOutcome) (sessionInfo : SessionInfo)
    (t : ITransport) : MRResult × List Event :=
  let ev := Event.httpAttempt sessionInfo.webPort t.isServerRequestTunnelled
  match http 0 with
  | .success => (.ret true, [ev])
  | .failed => (.ret false, [ev])
  | .raise => (.raised, [ev])

/-- MakeRequest from line 128 on, reached when no transport is connected:
bail if !adhocIfNeeded; else the direct-port loop over
[sessionInfo.GetWebPort(), 443], then GetTempTransports and the candidate
loop, returning the accumulated success flag. -/
def noTransport (http : Nat → HttpOutcome) (conn : Nat → ConnectOutcome)
    (catalog : List ITransport) (adhocIfNeeded : Bool)
    (sessionInfo : SessionInfo) : MRResult × List Event :=
  if !adhocIfNeeded then (.ret false, [])
  else
    let ports := [sessionInfo.webPort, 443]
    match tryPorts http ports 0 with
    | (.retd r, _, ev) => (r, ev)
    | (.exhausted, c, ev) =>
      let td := GetTempTransports sessionInfo catalog
      let r := tryCandidates http conn sessionInfo td.1 c
      (r.1, ev ++ td.2 ++ r.2.2)

/-- ServerRequest::MakeRequest (lines 88-225).  Arguments follow the C++
signature: adhocIfNeeded, currentTransport (null pointer = none),
sessionInfo, requestPath (null pointer = none); catalog is the enumeration
TransportRegistry::NewAll produces inside GetTempTransports; sig/http/conn
are the external oracles.  Order of the prologue follows the source:
CheckSignal (throws when signalled) at line 102, then assert(requestPath)
at line 104. -/
def MakeRequest (sig : Nat → Bool) (http : Nat → HttpOutcome)
    (conn : Nat → ConnectOutcome) (catalog : List ITransport)
    (adhocIfNeeded : Bool) (currentTransport : Option ITransport)
    (sessionInfo : SessionInfo) (requestPath : Option String) :
    MRResult × List Event :=
  if sig 0 then (.stopped, [])
  else
    match requestPath with
    | none => (.assertFailed, [])
    | some _ =>
      match currentTransport with
      | some t =>
        if t.isConnected then connectedAttempt http sessionInfo t
        else noTransport http conn catalog adhocIfNeeded sessionInfo
      | none => noTransport http conn catalog adhocIfNeeded sessionInfo

end ServerRequest

namespace ServerRequest

/-! ### Concrete fixtures used by counterexamples and witnesses -/

/-- Stop signal that is never raised. -/
def sigOff : Nat → Bool := fun _ => false

/-- Stop signal raised from the start of the call. -/
def sigOn : Nat → Bool := fun _ => true

/-- Stop signal raised immediately after the start of the call: false at the
initial poll point, true at every later instant. -/
def sigLate : Nat → Bool := fun n => decide (0 < n)

/-- HTTPS oracle on which every attempt fails. -/
def allFail : Nat → HttpOutcome := fun _ => HttpOutcome.failed

/-- HTTPS oracle on which every attempt succeeds. -/
def allSucceed : Nat → HttpOutcome := fun _ => HttpOutcome.success

/-- Connect oracle on which every temporary connect throws TryNextServer. -/
def noConn : Nat → ConnectOutcome := fun _ => ConnectOutcome.tryNextServer

/-- Connect oracle on which every temporary connect succeeds. -/
def allOkConn : Nat → ConnectOutcome := fun _ => ConnectOutcome.ok

/-- Session whose configured web port is the standard HTTPS port 443. -/
def sess443 : SessionInfo :=
  { serverAddress := "s", webPort := 443, webServerCertificate := "c" }

/-- Session whose configured web port is 8080. -/
def sess8080 : SessionInfo :=
  { serverAddress := "s", webPort := 8080, webServerCertificate := "c" }

/-- A disconnected transport that requires a handshake. -/
def tHs : ITransport :=
  { tid := 1, isConnected := false, isServerRequestTunnelled := false,
    isHandshakeRequired := fun _ => true }

/-- A disconnected handshake-free transport that tunnels server requests. -/
def tOk : ITransport :=
  { tid := 2, isConnected := false, isServerRequestTunnelled := true,
    isHandshakeRequired := fun _ => false }

/-- A connected transport that tunnels server requests. -/
def tConn : ITransport :=
  { tid := 7, isConnected := true, isServerRequestTunnelled := true,
    isHandshakeRequired := fun _ => false }

/-! ### C1 -/

/-- C1: when currentTransport is present and connected, MakeRequest makes
exactly one HTTPSRequest attempt, at sessionInfo's configured web port, with
the local-proxy flag equal to the transport's IsServerRequestTunnelled, and
returns that attempt's result directly; the trace holds that single attempt
and nothing else, so no direct-port attempt, no temporary-transport
selection (no dispose events) and no transport connect occurs. -/
theorem C1_connected_single_attempt (sig : Nat → Bool) (http : Nat → HttpOutcome)
    (conn : Nat → ConnectOutcome) (catalog : List ITransport)
    (adhocIfNeeded : Bool) (t : ITransport) (sessionInfo : SessionInfo)
    (p : String) (hsig : sig 0 = false) (hconn : t.isConnected = true) :
    MakeRequest sig http conn catalog adhocIfNeeded (some t) sessionInfo (some p)
      = ((match http 0 with
          | .success => MRResult.ret true
          | .failed => MRResult.ret false
          | .raise => MRResult.raised),
         [Event.httpAttempt sessionInfo.webPort t.isServerRequestTunnelled]) := by
  simp only [MakeRequest, hsig, hconn, Bool.false_eq_true, if_false, if_true,
    connectedAttempt]
  cases http 0 <;> rfl

/-- Witness for C1 at a connected tunnelling transport and an
always-succeeding HTTPS oracle. -/
theorem C1_witness :
    MakeRequest sigOff allSucceed noConn [] true (some tConn) sess8080 (some "/x")
      = (MRResult.ret true, [Event.httpAttempt 8080 true]) := by
  have h := C1_connected_single_attempt sigOff allSucceed noConn [] true tConn
    sess8080 "/x" rfl rfl
  exact h

/-! ### C2 -/

/-- C2 counterexample: with the configured web port equal to 443 and every
direct attempt failing, MakeRequest makes two direct attempts to port 443 —
the duplicate port is not skipped, contradicting the claim that exactly one
direct attempt to 443 occurs when the configured port is 443. -/
theorem C2_counterexample :
    (MakeRequest sigOff allFail noConn [] true none sess443 (some "/x")).2
        = [Event.httpAttempt 443 false, Event.httpAttempt 443 false]
      ∧ (MakeRequest sigOff allFail noConn [] true none sess443
          (some "/x")).2.count (Event.httpAttempt 443 false) = 2 := by
  constructor <;> decide

/-- C2 amended: the direct-connection step tries exactly the ordered list
[configured web port, 443] with no duplicate skipping: when both direct
attempts fail, the trace begins with those two attempts in order (both
attempts occur even when the configured port is 443) and the call proceeds
to the temporary-transport step. -/
theorem C2_amended_ports_no_dedup (sig : Nat → Bool) (http : Nat → HttpOutcome)
    (conn : Nat → ConnectOutcome) (catalog : List ITransport)
    (ct : Option ITransport) (sess : SessionInfo) (p : String)
    (hsig : sig 0 = false) (hct : ∀ t, ct = some t → t.isConnected = false)
    (h0 : http 0 = .failed) (h1 : http 1 = .failed) :
    MakeRequest sig http conn catalog true ct sess (some p)
      = ((tryCandidates http conn sess (GetTempTransports sess catalog).1 2).1,
         Event.httpAttempt sess.webPort false :: Event.httpAttempt 443 false ::
           ((GetTempTransports sess catalog).2 ++
            (tryCandidates http conn sess (GetTempTransports sess catalog).1 2).2.2)) := by
  have hbody : noTransport http conn catalog true sess
      = ((tryCandidates http conn sess (GetTempTransports sess catalog).1 2).1,
         Event.httpAttempt sess.webPort false :: Event.httpAttempt 443 false ::
           ((GetTempTransports sess catalog).2 ++
            (tryCandidates http conn sess (GetTempTransports sess catalog).1 2).2.2)) := by
    simp only [noTransport, tryPorts, h0, h1]
    rfl
  cases ct with
  | none => simp only [MakeRequest, hsig, Bool.false_eq_true, if_false]; exact hbody
  | some t =>
    have ht := hct t rfl
    simp only [MakeRequest, hsig, Bool.false_eq_true, if_false, ht]
    exact hbody

/-- Witness for C2 amended: both ports fail with an empty catalog, so the
call fails having attempted the configured port and then 443. -/
theorem C2_amended_witness :
    MakeRequest sigOff allFail noConn [] true none sess8080 (some "/x")
      = (MRResult.ret false,
         [Event.httpAttempt 8080 false, Event.httpAttempt 443 false]) := by
  have h := C2_amended_ports_no_dedup sigOff allFail noConn [] none sess8080 "/x"
    rfl (fun t ht => by cases ht) rfl rfl
  exact h

/-! ### C3 -/

/-- C3 counterexample: with a stop signal that is false at the start of the
call and true at every later instant, the claimed poll before the second
direct-port iteration would observe the signal and return Cancelled with no
further attempt; instead the call performs the second direct attempt and
returns an ordinary failure — the orchestrator never polls again after the
start. -/
theorem C3_counterexample :
    sigLate 0 = false ∧ (∀ n, 0 < n → sigLate n = true)
      ∧ (MakeRequest sigLate allFail noConn [] true none sess8080 (some "/x")).1
          = MRResult.ret false
      ∧ (MakeRequest sigLate allFail noConn [] true none sess8080 (some "/x")).2
          = [Event.httpAttempt 8080 false, Event.httpAttempt 443 false] := by
  refine ⟨rfl, fun n hn => ?_, by decide, by decide⟩
  simp [sigLate, hn]

/-- C3 amended: cancellation is polled exactly once, at the start of the
call before any I/O: if the signal is raised at that point the call throws
(result stopped) with an empty trace, and otherwise the signal is never
consulted again — the outcome and trace of the call depend only on the
signal's value at the initial poll point. -/
theorem C3_amended_single_poll (sig sigB : Nat → Bool) (http : Nat → HttpOutcome)
    (conn : Nat → ConnectOutcome) (catalog : List ITransport)
    (adhocIfNeeded : Bool) (ct : Option ITransport) (sess : SessionInfo)
    (path : Option String) :
    (sig 0 = true →
      MakeRequest sig http conn catalog adhocIfNeeded ct sess path
        = (MRResult.stopped, []))
    ∧ (sig 0 = sigB 0 →
      MakeRequest sig http conn catalog adhocIfNeeded ct sess path
        = MakeRequest sigB http conn catalog adhocIfNeeded ct sess path) := by
  constructor
  · intro h
    simp only [MakeRequest, h, if_true]
  · intro h
    simp only [MakeRequest, h]

/-- Witness for C3 amended: a signal raised at the start stops the call with
no events, and two signals agreeing at the start (one of them raised at
every later instant) give identical calls. -/
theorem C3_amended_witness :
    MakeRequest sigOn allFail noConn [] true none sess8080 (some "/x")
        = (MRResult.stopped, [])
      ∧ MakeRequest sigOff allFail noConn [] true none sess8080 (some "/x")
        = MakeRequest sigLate allFail noConn [] true none sess8080 (some "/x") := by
  constructor
  · exact (C3_amended_single_poll sigOn sigOff allFail noConn [] true none
      sess8080 (some "/x")).1 rfl
  · exact (C3_amended_single_poll sigOff sigLate allFail noConn [] true none
      sess8080 (some "/x")).2 rfl

end ServerRequest

namespace ServerRequest

/-! ### Trace lemmas -/

/-- The direct-port loop emits no connect and no disconnect events. -/
theorem tryPorts_no_teardown (http : Nat → HttpOutcome) (ports : List Nat)
    (c tid : Nat) :
    (tryPorts http ports c).2.2.count (Event.connect tid) = 0
      ∧ (tryPorts http ports c).2.2.count (Event.disconnect tid) = 0 := by
  induction ports generalizing c with
  | nil => simp [tryPorts]
  | cons p rest ih =>
    cases h : http c <;>
      simp [tryPorts, h, List.count_cons, ih (c + 1)]

/-- The selector emits only dispose events: no connects, no disconnects. -/
theorem getTempTransports_no_teardown (sess : SessionInfo)
    (catalog : List ITransport) (tid : Nat) :
    (GetTempTransports sess catalog).2.count (Event.connect tid) = 0
      ∧ (GetTempTransports sess catalog).2.count (Event.disconnect tid) = 0 := by
  induction catalog with
  | nil => simp [GetTempTransports]
  | cons t rest ih =>
    by_cases h : t.isHandshakeRequired sess <;>
      simp [GetTempTransports, h, List.count_cons, ih]

/-- In the candidate loop every connect event is matched by a disconnect
event of the same transport: the two counts agree on every trace the loop
can produce. -/
theorem tryCandidates_teardown (http : Nat → HttpOutcome)
    (conn : Nat → ConnectOutcome) (sess : SessionInfo) (l : List ITransport)
    (c tid : Nat) :
    (tryCandidates http conn sess l c).2.2.count (Event.connect tid)
      = (tryCandidates http conn sess l c).2.2.count (Event.disconnect tid) := by
  induction l generalizing c with
  | nil => simp [tryCandidates]
  | cons t rest ih =>
    cases hc : conn c with
    | tryNextServer =>
      simp [tryCandidates, hc, List.count_cons, ih (c + 1)]
    | ok =>
      cases hh : http (c + 1) with
      | success =>
        by_cases ht : t.tid = tid <;>
          simp [tryCandidates, hc, hh, List.count_cons, ht]
      | raise =>
        by_cases ht : t.tid = tid <;>
          simp [tryCandidates, hc, hh, List.count_cons, ht]
      | failed =>
        by_cases ht : t.tid = tid <;>
          simp [tryCandidates, hc, hh, List.count_cons, List.count_append,
            ht, ih (c + 2)]

/-- The no-connected-transport tail of MakeRequest balances connects and
disconnects for every transport identity. -/
theorem noTransport_teardown (http : Nat → HttpOutcome)
    (conn : Nat → ConnectOutcome) (catalog : List ITransport)
    (adhocIfNeeded : Bool) (sess : SessionInfo) (tid : Nat) :
    (noTransport http conn catalog adhocIfNeeded sess).2.count (Event.connect tid)
      = (noTransport http conn catalog adhocIfNeeded sess).2.count
          (Event.disconnect tid) := by
  unfold noTransport
  by_cases ha : adhocIfNeeded
  · simp only [ha, Bool.not_true, Bool.false_eq_true, if_false]
    rcases hp : tryPorts http [sess.webPort, 443] 0 with ⟨e, c, ev⟩
    have hports := tryPorts_no_teardown http [sess.webPort, 443] 0 tid
    rw [hp] at hports
    cases e with
    | retd r =>
      simp [hports.1, hports.2]
    | exhausted =>
      have hget := getTempTransports_no_teardown sess catalog tid
      have hcand := tryCandidates_teardown http conn sess
        (GetTempTransports sess catalog).1 c tid
      simp [List.count_append, hports.1, hports.2, hget.1, hget.2, hcand]
  · simp [ha]

/-- C4: every temporary transport the call connects is disconnected before
the call returns, on every outcome path (request success, request failure,
acquisition failure, cancellation, exception from the attempt): in the trace
of any MakeRequest call the number of connect events equals the number of
disconnect events for every transport identity. -/
theorem C4_temp_transport_teardown (sig : Nat → Bool) (http : Nat → HttpOutcome)
    (conn : Nat → ConnectOutcome) (catalog : List ITransport)
    (adhocIfNeeded : Bool) (ct : Option ITransport) (sess : SessionInfo)
    (path : Option String) (tid : Nat) :
    (MakeRequest sig http conn catalog adhocIfNeeded ct sess path).2.count
        (Event.connect tid)
      = (MakeRequest sig http conn catalog adhocIfNeeded ct sess path).2.count
          (Event.disconnect tid) := by
  unfold MakeRequest
  by_cases hs : sig 0
  · simp [hs]
  · simp only [hs, Bool.false_eq_true, if_false]
    cases path with
    | none => simp
    | some p =>
      cases ct with
      | none => exact noTransport_teardown http conn catalog adhocIfNeeded sess tid
      | some t =>
        by_cases htc : t.isConnected
        · simp only [htc, if_true]
          unfold connectedAttempt
          cases http 0 <;> simp [List.count_cons]
        · simp only [htc, Bool.false_eq_true, if_false]
          exact noTransport_teardown http conn catalog adhocIfNeeded sess tid

end ServerRequest

namespace ServerRequest

/-- Every connect event the candidate loop emits names a member of the
candidate list it was given. -/
theorem tryCandidates_connect_mem (http : Nat → HttpOutcome)
    (conn : Nat → ConnectOutcome) (sess : SessionInfo) (l : List ITransport)
    (c tid : Nat)
    (h : Event.connect tid ∈ (tryCandidates http conn sess l c).2.2) :
    ∃ t, t ∈ l ∧ t.tid = tid := by
  induction l generalizing c with
  | nil => simp [tryCandidates] at h
  | cons t rest ih =>
    cases hc : conn c with
    | tryNextServer =>
      rw [tryCandidates, hc] at h
      simp only [List.mem_cons] at h
      rcases h with h | h
      · exact absurd h (by simp)
      · obtain ⟨u, hu, hu2⟩ := ih (c + 1) h
        exact ⟨u, List.mem_cons_of_mem t hu, hu2⟩
    | ok =>
      rw [tryCandidates, hc] at h
      cases hh : http (c + 1) <;> rw [hh] at h <;>
        simp only [List.mem_append, List.mem_cons, List.not_mem_nil,
          or_false] at h
      · rcases h with h | h | h
        · exact ⟨t, List.mem_cons_self t rest, (by simpa using h.symm)⟩
        · exact absurd h (by simp)
        · exact absurd h (by simp)
      · rcases h with (h | h | h) | h
        · exact ⟨t, List.mem_cons_self t rest, (by simpa using h.symm)⟩
        · exact absurd h (by simp)
        · exact absurd h (by simp)
        · obtain ⟨u, hu, hu2⟩ := ih (c + 2) h
          exact ⟨u, List.mem_cons_of_mem t hu, hu2⟩
      · rcases h with h | h | h
        · exact ⟨t, List.mem_cons_self t rest, (by simpa using h.symm)⟩
        · exact absurd h (by simp)
        · exact absurd h (by simp)

end ServerRequest

namespace ServerRequest

/-- Characterization of GetTempTransports: the returned list is the
order-preserving filter of the catalog by no-handshake-required, and the
disposal events are exactly the handshake-requiring members in order. -/
theorem getTempTransports_eq (sess : SessionInfo) (catalog : List ITransport) :
    (GetTempTransports sess catalog).1
        = catalog.filter (fun t => !t.isHandshakeRequired sess)
      ∧ (GetTempTransports sess catalog).2
        = (catalog.filter (fun t => t.isHandshakeRequired sess)).map
            (fun t => Event.dispose t.tid) := by
  induction catalog with
  | nil => simp [GetTempTransports]
  | cons t rest ih =>
    by_cases h : t.isHandshakeRequired sess <;>
      simp [GetTempTransports, h, List.filter_cons, ih.1, ih.2]

/-- Every connect event in the trace of the no-connected-transport tail
names a handshake-free member of the catalog. -/
theorem noTransport_connect_mem (http : Nat → HttpOutcome)
    (conn : Nat → ConnectOutcome) (catalog : List ITransport)
    (adhocIfNeeded : Bool) (sess : SessionInfo) (tid : Nat)
    (h : Event.connect tid ∈ (noTransport http conn catalog adhocIfNeeded sess).2) :
    ∃ t, t ∈ catalog ∧ t.isHandshakeRequired sess = false ∧ t.tid = tid := by
  unfold noTransport at h
  by_cases ha : adhocIfNeeded
  · simp only [ha, Bool.not_true, Bool.false_eq_true, if_false] at h
    rcases hp : tryPorts http [sess.webPort, 443] 0 with ⟨e, c, ev⟩
    rw [hp] at h
    have hports := tryPorts_no_teardown http [sess.webPort, 443] 0 tid
    rw [hp] at hports
    have hevports : Event.connect tid ∉ ev :=
      List.count_eq_zero.mp hports.1
    cases e with
    | retd r => exact absurd h hevports
    | exhausted =>
      simp only [List.mem_append] at h
      rcases h with (h | h) | h
      · exact absurd h hevports
      · rw [(getTempTransports_eq sess catalog).2] at h
        simp only [List.mem_map] at h
        obtain ⟨u, _, hu⟩ := h
        exact absurd hu (by simp)
      · obtain ⟨u, hu, hu2⟩ := tryCandidates_connect_mem http conn sess
          (GetTempTransports sess catalog).1 c tid h
        rw [(getTempTransports_eq sess catalog).1] at hu
        rw [List.mem_filter] at hu
        exact ⟨u, hu.1, by simpa using hu.2, hu2⟩
  · simp [ha] at h

/-- C5: the selector returns exactly the catalog members reporting no
handshake required, in catalog order; the members reporting handshake
required are disposed at the point of filtering (the disposal events are
exactly those members, in order); and no transport reporting handshake
required is ever connected by MakeRequest — every connect event in any
call's trace names a handshake-free catalog member. -/
theorem C5_selector_filters (sig : Nat → Bool) (http : Nat → HttpOutcome)
    (conn : Nat → ConnectOutcome) (catalog : List ITransport)
    (adhocIfNeeded : Bool) (ct : Option ITransport) (sess : SessionInfo)
    (path : Option String) :
    (GetTempTransports sess catalog).1
        = catalog.filter (fun t => !t.isHandshakeRequired sess)
      ∧ (GetTempTransports sess catalog).2
        = (catalog.filter (fun t => t.isHandshakeRequired sess)).map
            (fun t => Event.dispose t.tid)
      ∧ ∀ tid, Event.connect tid ∈
            (MakeRequest sig http conn catalog adhocIfNeeded ct sess path).2 →
          ∃ t, t ∈ catalog ∧ t.isHandshakeRequired sess = false ∧ t.tid = tid := by
  refine ⟨(getTempTransports_eq sess catalog).1,
    (getTempTransports_eq sess catalog).2, fun tid h => ?_⟩
  unfold MakeRequest at h
  by_cases hs : sig 0
  · simp [hs] at h
  · simp only [hs, Bool.false_eq_true, if_false] at h
    cases path with
    | none => simp at h
    | some p =>
      cases ct with
      | none => exact noTransport_connect_mem http conn catalog adhocIfNeeded sess tid h
      | some t =>
        by_cases htc : t.isConnected
        · simp only [htc, if_true] at h
          unfold connectedAttempt at h
          cases hh : http 0 <;> rw [hh] at h <;> simp at h
        · simp only [htc, Bool.false_eq_true, if_false] at h
          exact noTransport_connect_mem http conn catalog adhocIfNeeded sess tid h

/-- Witness for C5: with a catalog holding a handshake-requiring transport
and a handshake-free one, a call that reaches the candidate loop connects
the handshake-free member, and C5 locates it in the catalog. -/
theorem C5_witness :
    (Event.connect 2 ∈
        (MakeRequest sigOff allFail allOkConn [tHs, tOk] true none sess8080
          (some "/x")).2)
      ∧ ∃ t, t ∈ [tHs, tOk] ∧ t.isHandshakeRequired sess8080 = false
          ∧ t.tid = 2 := by
  refine ⟨by decide, ?_⟩
  exact (C5_selector_filters sigOff allFail allOkConn [tHs, tOk] true none
    sess8080 (some "/x")).2.2 2 (by decide)

end ServerRequest

namespace ServerRequest

/-- C6: when no transport is connected (currentTransport null or reporting
disconnected) and adhocIfNeeded is false, MakeRequest returns false with an
empty trace — zero HTTPSRequest attempts and zero transport connects. -/
theorem C6_no_adhoc_bails (sig : Nat → Bool) (http : Nat → HttpOutcome)
    (conn : Nat → ConnectOutcome) (catalog : List ITransport)
    (ct : Option ITransport) (sess : SessionInfo) (p : String)
    (hsig : sig 0 = false) (hct : ∀ t, ct = some t → t.isConnected = false) :
    MakeRequest sig http conn catalog false ct sess (some p)
      = (MRResult.ret false, []) := by
  cases ct with
  | none => simp [MakeRequest, hsig, noTransport]
  | some t =>
    have ht := hct t rfl
    simp [MakeRequest, hsig, ht, noTransport]

/-- Witness for C6 at a present-but-disconnected transport and a non-empty
catalog. -/
theorem C6_witness :
    MakeRequest sigOff allSucceed allOkConn [tHs, tOk] false (some tOk)
        sess8080 (some "/x")
      = (MRResult.ret false, []) :=
  C6_no_adhoc_bails sigOff allSucceed allOkConn [tHs, tOk] (some tOk) sess8080
    "/x" rfl (fun t ht => by cases ht; rfl)

/-! ### C7 -/

/-- C7 counterexample: a present but empty request path passes the
assert(requestPath) null check, and with a connected transport the call
proceeds to an HTTPSRequest attempt — no fatal precondition violation is
signalled for an empty (non-null) path, contradicting the claim that an
empty path is rejected before any I/O. -/
theorem C7_counterexample :
    (MakeRequest sigOff allFail noConn [] true (some tConn) sess8080 (some "")).2
        = [Event.httpAttempt 8080 true]
      ∧ (MakeRequest sigOff allFail noConn [] true (some tConn) sess8080
          (some "")).1 ≠ MRResult.assertFailed := by
  constructor <;> decide

/-- C7 amended: the precondition checked is that the request path is present
(non-null): a null requestPath fails the assertion immediately, before any
I/O — the result is the assertion exit with an empty trace, so no
HTTPSRequest attempt and no transport connect occurs; an empty-but-present
path is not rejected. -/
theorem C7_amended_null_path_asserts (sig : Nat → Bool)
    (http : Nat → HttpOutcome) (conn : Nat → ConnectOutcome)
    (catalog : List ITransport) (adhocIfNeeded : Bool)
    (ct : Option ITransport) (sess : SessionInfo) (hsig : sig 0 = false) :
    MakeRequest sig http conn catalog adhocIfNeeded ct sess none
      = (MRResult.assertFailed, []) := by
  simp [MakeRequest, hsig]

/-- Witness for C7 amended at a null path with a connected transport. -/
theorem C7_amended_witness :
    MakeRequest sigOff allSucceed allOkConn [tHs, tOk] true (some tConn)
        sess8080 none
      = (MRResult.assertFailed, []) :=
  C7_amended_null_path_asserts sigOff allSucceed allOkConn [tHs, tOk] true
    (some tConn) sess8080 rfl

end ServerRequest

namespace ServerRequest

/-- C8: every direct attempt passes useLocalProxy = false and the ports are
tried strictly in list order: when no transport is connected and
adhocIfNeeded holds, a first-attempt success is returned immediately after
exactly that one attempt; a first-attempt failure advances to 443, whose
success is returned after exactly those two attempts; and when both direct
attempts fail the call proceeds to the temporary-transport step. -/
theorem C8_direct_attempts (sig : Nat → Bool) (http : Nat → HttpOutcome)
    (conn : Nat → ConnectOutcome) (catalog : List ITransport)
    (ct : Option ITransport) (sess : SessionInfo) (p : String)
    (hsig : sig 0 = false) (hct : ∀ t, ct = some t → t.isConnected = false) :
    (http 0 = .success →
      MakeRequest sig http conn catalog true ct sess (some p)
        = (MRResult.ret true, [Event.httpAttempt sess.webPort false]))
    ∧ (http 0 = .failed → http 1 = .success →
      MakeRequest sig http conn catalog true ct sess (some p)
        = (MRResult.ret true,
           [Event.httpAttempt sess.webPort false, Event.httpAttempt 443 false]))
    ∧ (http 0 = .failed → http 1 = .failed →
      MakeRequest sig http conn catalog true ct sess (some p)
        = ((tryCandidates http conn sess (GetTempTransports sess catalog).1 2).1,
           Event.httpAttempt sess.webPort false :: Event.httpAttempt 443 false ::
             ((GetTempTransports sess catalog).2 ++
              (tryCandidates http conn sess
                (GetTempTransports sess catalog).1 2).2.2))) := by
  have hbody : ∀ r : MRResult × List Event,
      noTransport http conn catalog true sess = r →
      MakeRequest sig http conn catalog true ct sess (some p) = r := by
    intro r hr
    cases ct with
    | none => simp only [MakeRequest, hsig, Bool.false_eq_true, if_false]; exact hr
    | some t =>
      have ht := hct t rfl
      simp only [MakeRequest, hsig, Bool.false_eq_true, if_false, ht]
      exact hr
  refine ⟨fun h0 => hbody _ ?_, fun h0 h1 => hbody _ ?_, fun h0 h1 => hbody _ ?_⟩
  · simp only [noTransport, tryPorts, h0]
    rfl
  · simp only [noTransport, tryPorts, h0, h1]
    rfl
  · simp only [noTransport, tryPorts, h0, h1]
    rfl

/-- Witness for C8 with an always-succeeding HTTPS oracle: one direct
attempt at the configured port, unproxied, returned immediately. -/
theorem C8_witness :
    MakeRequest sigOff allSucceed noConn [tHs, tOk] true none sess8080
        (some "/x")
      = (MRResult.ret true, [Event.httpAttempt 8080 false]) :=
  (C8_direct_attempts sigOff allSucceed noConn [tHs, tOk] none sess8080 "/x"
    rfl (fun t ht => by cases ht)).1 rfl

end ServerRequest

namespace ServerRequest

/-- C9: the candidate loop processes candidates in selector order: an empty
list yields the overall failure result with no events; an acquisition
failure (TryNextServer) is non-fatal and advances to the next candidate; a
successfully acquired candidate gets exactly one HTTPSRequest at
sessionInfo's web port with useLocalProxy equal to its
IsServerRequestTunnelled, whose success is returned immediately (the rest of
the list untouched) and whose failure advances to the next candidate after
teardown; and after both direct attempts fail MakeRequest's result is that
of the candidate loop over the selector's list. -/
theorem C9_candidate_loop (sig : Nat → Bool) (http : Nat → HttpOutcome)
    (conn : Nat → ConnectOutcome) (catalog : List ITransport)
    (ct : Option ITransport) (sess : SessionInfo) (p : String)
    (t : ITransport) (rest : List ITransport) (c : Nat)
    (hsig : sig 0 = false) (hct : ∀ u, ct = some u → u.isConnected = false)
    (h0 : http 0 = .failed) (h1 : http 1 = .failed) :
    tryCandidates http conn sess [] c = (MRResult.ret false, c, [])
    ∧ (conn c = .tryNextServer →
      tryCandidates http conn sess (t :: rest) c
        = ((tryCandidates http conn sess rest (c + 1)).1,
           (tryCandidates http conn sess rest (c + 1)).2.1,
           Event.connectFailed t.tid ::
             (tryCandidates http conn sess rest (c + 1)).2.2))
    ∧ (conn c = .ok → http (c + 1) = .success →
      tryCandidates http conn sess (t :: rest) c
        = (MRResult.ret true, c + 2,
           [Event.connect t.tid,
            Event.httpAttempt sess.webPort t.isServerRequestTunnelled,
            Event.disconnect t.tid]))
    ∧ (conn c = .ok → http (c + 1) = .failed →
      tryCandidates http conn sess (t :: rest) c
        = ((tryCandidates http conn sess rest (c + 2)).1,
           (tryCandidates http conn sess rest (c + 2)).2.1,
           [Event.connect t.tid,
            Event.httpAttempt sess.webPort t.isServerRequestTunnelled,
            Event.disconnect t.tid] ++
             (tryCandidates http conn sess rest (c + 2)).2.2))
    ∧ MakeRequest sig http conn catalog true ct sess (some p)
        = ((tryCandidates http conn sess (GetTempTransports sess catalog).1 2).1,
           Event.httpAttempt sess.webPort false :: Event.httpAttempt 443 false ::
             ((GetTempTransports sess catalog).2 ++
              (tryCandidates http conn sess
                (GetTempTransports sess catalog).1 2).2.2)) := by
  refine ⟨rfl, fun hc => ?_, fun hc hh => ?_, fun hc hh => ?_, ?_⟩
  · rw [tryCandidates, hc]
  · rw [tryCandidates, hc, hh]
  · rw [tryCandidates, hc, hh]
  · have hbody : noTransport http conn catalog true sess
        = ((tryCandidates http conn sess (GetTempTransports sess catalog).1 2).1,
           Event.httpAttempt sess.webPort false :: Event.httpAttempt 443 false ::
             ((GetTempTransports sess catalog).2 ++
              (tryCandidates http conn sess
                (GetTempTransports sess catalog).1 2).2.2)) := by
      simp only [noTransport, tryPorts, h0, h1]
      rfl
    cases ct with
    | none => simp only [MakeRequest, hsig, Bool.false_eq_true, if_false]; exact hbody
    | some u =>
      have hu := hct u rfl
      simp only [MakeRequest, hsig, Bool.false_eq_true, if_false, hu]
      exact hbody

/-- Witness for C9: both direct attempts fail, the handshake-requiring
transport is filtered out, the first candidate's acquisition fails
(non-fatal), no candidates remain, and the call fails overall. -/
theorem C9_witness :
    MakeRequest sigOff allFail noConn [tHs, tOk] true none sess8080 (some "/x")
      = (MRResult.ret false,
         [Event.httpAttempt 8080 false, Event.httpAttempt 443 false,
          Event.dispose 1, Event.connectFailed 2]) := by
  have h := (C9_candidate_loop sigOff allFail noConn [tHs, tOk] none sess8080
    "/x" tOk [] 2 rfl (fun u hu => by cases hu) rfl rfl).2.2.2.2
  exact h

end ServerRequest

namespace ServerRequest

/-- C10: a present-but-disconnected currentTransport behaves exactly like an
absent one: for every combination of the other arguments the call produces
the same result and the same event trace, so the disconnected transport is
never read further, never connected and never disconnected. -/
theorem C10_disconnected_like_absent (sig : Nat → Bool)
    (http : Nat → HttpOutcome) (conn : Nat → ConnectOutcome)
    (catalog : List ITransport) (adhocIfNeeded : Bool) (sess : SessionInfo)
    (path : Option String) (t : ITransport) (h : t.isConnected = false) :
    MakeRequest sig http conn catalog adhocIfNeeded (some t) sess path
      = MakeRequest sig http conn catalog adhocIfNeeded none sess path := by
  unfold MakeRequest
  by_cases hs : sig 0
  · simp [hs]
  · cases path <;> simp [hs, h]

/-- Witness for C10 at a disconnected transport: the call with it present
equals the call with it absent. -/
theorem C10_witness :
    MakeRequest sigOff allFail allOkConn [tHs, tOk] true (some tOk) sess8080
        (some "/x")
      = MakeRequest sigOff allFail allOkConn [tHs, tOk] true none sess8080
          (some "/x") :=
  C10_disconnected_like_absent sigOff allFail allOkConn [tHs, tOk] true
    sess8080 (some "/x") tOk rfl

end ServerRequest
